import Mathlib

/-!
Verification of the kubizone-crds delegation-authorization engine.

The Rust sources embedded here are `src/v1alpha1/mod.rs` (the pattern
matcher `domain_matches_pattern`) and `src/v1alpha1/zone.rs` /
`src/v1alpha1/dnsrecord.rs` (the `Zone`, `Record`, `Delegation` and
`RecordDelegation` types and their validation methods).  Rust strings are
Lean `String`s, `Vec` is `List`, `Option` is `Option`.  The external
`kubizone_common` domain-name types are plain strings here (the code only
ever consumes their text via `as_ref`); its `is_subdomain_of` relation is
not part of this repository and is modelled from the specification.
-/

namespace Kubizone

/-- Embeds Rust `str::split('.')`: cut a character list at every dot,
keeping empty segments, exactly as the iterator does. -/
def splitDotAux : List Char → List Char → List String
  | [], acc => [String.mk acc.reverse]
  | c :: cs, acc =>
    if c = '.' then String.mk acc.reverse :: splitDotAux cs [] else splitDotAux cs (c :: acc)

/-- Dot-separated segments of a string, in original (left-to-right) order. -/
def splitDot (s : String) : List String :=
  splitDotAux s.data []

/-- Embeds Rust `str::split_once(c)`: split at the first occurrence of `c`,
returning the text before and after it, or `none` when `c` is absent. -/
def splitOnceAux (c : Char) : List Char → Option (List Char × List Char)
  | [] => none
  | x :: xs =>
    if x = c then some ([], xs)
    else (splitOnceAux c xs).map (fun p => (x :: p.1, p.2))

/-- String-level wrapper for `splitOnceAux`. -/
def splitOnce (s : String) (c : Char) : Option (String × String) :=
  (splitOnceAux c s.data).map (fun p => (String.mk p.1, String.mk p.2))

/-- Boolean list prefix test, used to embed `str::starts_with` and
(through reversal) `str::ends_with`. -/
def isPrefixList [BEq α] : List α → List α → Bool
  | [], _ => true
  | _ :: _, [] => false
  | x :: xs, y :: ys => x == y && isPrefixList xs ys

/-- Embeds Rust `str::starts_with(head)`. -/
def strStartsWith (s p : String) : Bool :=
  isPrefixList p.data s.data

/-- Embeds Rust `str::ends_with(tail)`. -/
def strEndsWith (s p : String) : Bool :=
  isPrefixList p.data.reverse s.data.reverse

/-- Embeds Rust `str::replace(c, rep)`: every occurrence of the character
`c` is replaced by the string `rep`. -/
def replaceCharAux (c : Char) (rep : List Char) : List Char → List Char
  | [] => []
  | x :: xs =>
    if x = c then rep ++ replaceCharAux c rep xs else x :: replaceCharAux c rep xs

/-- String-level wrapper for `replaceCharAux`. -/
def replaceChar (s : String) (c : Char) (rep : String) : String :=
  String.mk (replaceCharAux c rep.data s.data)

/-- Embeds Rust `str::to_uppercase` on the ASCII alphabet (the record-type
names compared by the code are ASCII). -/
def toUpperStr (s : String) : String :=
  String.mk (s.data.map Char.toUpper)

/-- Embeds Rust `Option::is_some_and`. -/
def optIsSomeAnd (p : α → Bool) : Option α → Bool
  | some a => p a
  | none => false

/-- The `for (pattern, domain) in pattern_segments.zip(domain_segments)`
loop of `domain_matches_pattern` (mod.rs lines 51-63): iteration stops at
the shorter list, equal labels continue, a differing label containing a
star decides the whole call by head/tail containment, any other differing
label fails the call; an exhausted loop succeeds. -/
def matchSegments : List String → List String → Bool
  | p :: ps, d :: ds =>
    if p == d then matchSegments ps ds
    else
      match splitOnce p '*' with
      | some ht => strStartsWith d ht.1 && strEndsWith d ht.2
      | none => false
  | _, _ => true

/-- Embeds `domain_matches_pattern` (mod.rs lines 41-64): both strings are
split on dots and reversed; mismatched segment counts fail unless the last
reversed (leftmost original) pattern segment is a bare star; otherwise the
zipped segment loop decides. -/
def domain_matches_pattern (pattern : String) (domain : String) : Bool :=
  let pattern_segments := (splitDot pattern).reverse
  let domain_segments := (splitDot domain).reverse
  if pattern_segments.length != domain_segments.length
      && !(pattern_segments.getLast? == some ("*")) then
    false
  else
    matchSegments pattern_segments domain_segments

/-- Modelled from the spec: `FullyQualifiedDomainName::is_subdomain_of`
lives in the external `kubizone_common` crate, not among the sources of this
repository.  The spec (§3 and glossary) describes it as requiring that A end
with the labels of B and that A differ from B, but the strictness conjunct `A ≠ B` is contradicted by
the own test suite of this repository: `test_record_type_limit` (zone.rs lines
495-511) requires `Zone::validate_record` to accept a record whose FQDN
`example.org.` equals the zone FQDN, which forces
`is_subdomain_of ("example.org.") ("example.org.") = true`.  The relation
is therefore modelled as the reflexive label-suffix test. -/
def is_subdomain_of (a b : String) : Bool :=
  isPrefixList (splitDot b).reverse (splitDot a).reverse

/-- Embeds `kube::core::ObjectMeta`, restricted to the fields the code
reads: `name` (via `name_any`), `namespace` (via `ResourceExt::namespace`)
and `uid` (via `ResourceExt::uid`). -/
structure ObjectMeta where
  name : Option String
  namespace_ : Option String
  uid : Option String

/-- Embeds `ZoneRef` (mod.rs lines 15-18). -/
structure ZoneRef where
  name : String
  namespace_ : Option String

/-- Embeds `RecordDelegation` (zone.rs lines 288-295). -/
structure RecordDelegation where
  pattern : String
  types : List String

/-- Embeds `Delegation` (zone.rs lines 318-325). -/
structure Delegation where
  namespaces : List String
  zones : List String
  records : List RecordDelegation

/-- Embeds `ZoneSpec` (zone.rs lines 79-141).  Domain names are their
text. -/
structure ZoneSpec where
  domain_name : String
  zone_ref : Option ZoneRef
  delegations : List Delegation
  ttl : Nat
  refresh : Nat
  retry : Nat
  expire : Nat
  negative_response_cache : Nat

/-- Embeds `ZoneEntry` (zone.rs lines 275-282). -/
structure ZoneEntry where
  fqdn : String
  type_ : String
  class_ : String
  ttl : Nat
  rdata : String

/-- Embeds `ZoneStatus` (zone.rs lines 246-271). -/
structure ZoneStatus where
  entries : List ZoneEntry
  fqdn : Option String
  hash : Option String
  serial : Option Nat

/-- Embeds the kube-derived `Zone` custom resource: metadata, spec,
optional status. -/
structure Zone where
  metadata : ObjectMeta
  spec : ZoneSpec
  status : Option ZoneStatus

/-- Embeds `RecordSpec` (dnsrecord.rs lines 35-44, the module actually
re-exported by mod.rs, where `type` and `class` are plain strings). -/
structure RecordSpec where
  domain_name : String
  zone_ref : Option ZoneRef
  type_ : String
  class_ : String
  ttl : Option Nat
  rdata : String

/-- Embeds `RecordStatus` (dnsrecord.rs lines 46-49). -/
structure RecordStatus where
  fqdn : Option String

/-- Embeds the kube-derived `Record` custom resource. -/
structure Record where
  metadata : ObjectMeta
  spec : RecordSpec
  status : Option RecordStatus

/-- Embeds `Zone::fqdn` (zone.rs lines 153-155). -/
def Zone.fqdn (z : Zone) : Option String :=
  z.status.bind (fun status => status.fqdn)

/-- Embeds `Record::fqdn` (dnsrecord.rs lines 52-54). -/
def Record.fqdn (r : Record) : Option String :=
  r.status.bind (fun status => status.fqdn)

/-- Embeds `ResourceExt::name_any`: the metadata name, defaulting to the
empty string. -/
def Zone.nameAny (z : Zone) : String :=
  z.metadata.name.getD ("")

/-- Embeds the `Display` implementation for `Zone` (zone.rs lines
232-242): it formats `namespace/name` after `unwrap()`ing the optional
metadata namespace, so the result is undefined (`none`, a panic in Rust)
when the namespace is absent. -/
def Zone.display (z : Zone) : Option String :=
  match z.metadata.namespace_ with
  | some ns => some (ns ++ "/" ++ z.nameAny)
  | none => none

/-- Embeds `RecordDelegation::validate` (zone.rs lines 297-313): uppercase
the record type, substitute `@` in the pattern by the zone FQDN, then
require a pattern match and (empty type list or a case-insensitive type
hit). -/
def RecordDelegation.validate (rd : RecordDelegation) (zone_fqdn : String)
    (record_type : String) (domain : String) : Bool :=
  let record_type := toUpperStr record_type
  domain_matches_pattern (replaceChar rd.pattern '@' zone_fqdn) domain
    && (rd.types.isEmpty
        || rd.types.any (fun delegated_type => toUpperStr delegated_type == record_type))

/-- Embeds `Delegation::covers_namespace` (zone.rs lines 328-344): an
empty namespace list covers everything, otherwise membership decides. -/
def Delegation.covers_namespace (d : Delegation) (ns : String) : Bool :=
  if d.namespaces.isEmpty then true
  else if d.namespaces.any (fun delegated_namespace => delegated_namespace == ns) then true
  else false

/-- Embeds `Delegation::validate_record` (zone.rs lines 348-362): the for
loop returning on the first validating rule, `false` when none does. -/
def Delegation.validate_record (d : Delegation) (zone_fqdn : String)
    (record_type : String) (domain : String) : Bool :=
  d.records.any (fun record_delegation =>
    record_delegation.validate zone_fqdn record_type domain)

/-- Embeds `Delegation::validate_zone` (zone.rs lines 364-379): the for
loop over the `@`-substituted zone patterns, `false` when none matches. -/
def Delegation.validate_zone (d : Delegation) (parent_fqdn : String)
    (domain : String) : Bool :=
  d.zones.any (fun zone_delegation =>
    domain_matches_pattern (replaceChar zone_delegation '@' parent_fqdn) domain)

/-- Embeds `Zone::validate_record` (zone.rs lines 168-201): early return
`false` without a parent or record FQDN, then the (recomputed)
`is_some_and` subdomain check, then the existential scan over delegations
combining namespace coverage (absent namespaces default to the empty
string) with rule validation. -/
def Zone.validate_record (z : Zone) (record : Record) : Bool :=
  match Zone.fqdn z with
  | none => false
  | some parent_fqdn =>
    match Record.fqdn record with
    | none => false
    | some _record_fqdn =>
      if !(optIsSomeAnd (fun fqdn => is_subdomain_of fqdn parent_fqdn) (Record.fqdn record)) then
        false
      else if z.spec.delegations.any (fun delegation =>
          delegation.covers_namespace (record.metadata.namespace_.getD (""))
            && delegation.validate_record parent_fqdn record.spec.type_
                record.spec.domain_name) then
        true
      else
        false

/-- Embeds `Zone::validate_zone` (zone.rs lines 204-229): early return
`false` without FQDNs, the strict subdomain check, the uid self-delegation
check, then the existential scan over delegations. -/
def Zone.validate_zone (z : Zone) (zone : Zone) : Bool :=
  match Zone.fqdn z with
  | none => false
  | some parent_fqdn =>
    match Zone.fqdn zone with
    | none => false
    | some zone_fqdn =>
      if !(is_subdomain_of zone_fqdn parent_fqdn) then false
      else if z.metadata.uid == zone.metadata.uid then false
      else z.spec.delegations.any (fun delegation =>
        delegation.covers_namespace (zone.metadata.namespace_.getD (""))
          && delegation.validate_zone parent_fqdn zone.spec.domain_name)

/-- Concrete fixture mirroring the zone of the in-repository
`test_record_type_limit` test (zone.rs lines 472-491): FQDN
`example.org.`, one delegation for namespace `default` with pattern
`example.org.` restricted to MX records. -/
def typeLimitZone : Zone :=
  Zone.mk (ObjectMeta.mk none none none)
    (ZoneSpec.mk ("example.org.") none
      [Delegation.mk [("default")] []
        [RecordDelegation.mk ("example.org.") [("MX")]]]
      360 86400 7200 3600000 360)
    (some (ZoneStatus.mk [] (some ("example.org.")) none none))

/-- Concrete fixture mirroring the allowed MX record of
`test_record_type_limit` (zone.rs lines 495-511): its FQDN equals the
zone FQDN `example.org.`. -/
def mxRecord : Record :=
  Record.mk (ObjectMeta.mk none (some ("default")) none)
    (RecordSpec.mk ("example.org.") none ("MX") ("IN") none ("10 mail1.example.org."))
    (some (RecordStatus.mk (some ("example.org."))))

/-- Concrete fixture mirroring the zone of `test_record_delegation`
(zone.rs lines 395-414): wildcard record pattern for namespace
`default`. -/
def wildcardZone : Zone :=
  Zone.mk (ObjectMeta.mk none none none)
    (ZoneSpec.mk ("example.org.") none
      [Delegation.mk [("default")] []
        [RecordDelegation.mk ("*.example.org.") []]]
      360 86400 7200 3600000 360)
    (some (ZoneStatus.mk [] (some ("example.org.")) none none))

/-- Concrete zone without a metadata namespace and without a computed
FQDN. -/
def noNamespaceZone : Zone :=
  Zone.mk (ObjectMeta.mk (some ("lonely")) none none)
    (ZoneSpec.mk ("example.org.") none [] 360 86400 7200 3600000 360)
    none

/-- Concrete record without a metadata namespace. -/
def noNamespaceRecord : Record :=
  Record.mk (ObjectMeta.mk (some ("www")) none none)
    (RecordSpec.mk ("www.example.org.") none ("A") ("IN") none ("192.168.0.1"))
    (some (RecordStatus.mk (some ("www.example.org."))))

/-- The segment loop succeeds on any pair of identical lists: every zipped
pair compares equal. -/
theorem matchSegments_refl (l : List String) : matchSegments l l = true := by
  induction l with
  | nil => rfl
  | cons x xs ih => simp [matchSegments, ih]

/-- The segment loop never looks past the length of the candidate list:
truncating the pattern list to that length does not change the result. -/
theorem matchSegments_take_length (ps ds : List String) :
    matchSegments ps ds = matchSegments (ps.take ds.length) ds := by
  induction ps generalizing ds with
  | nil => simp
  | cons p ps ih =>
    cases ds with
    | nil => rfl
    | cons d ds =>
      simp only [List.length_cons, List.take_succ_cons, matchSegments]
      rw [ih]

/-- C7: reflexivity of the matcher on literal names: for every domain D
whose text contains no `*`, `domain_matches_pattern D D = true` — equal
segment counts pass the escape check and every paired label compares
textually equal, reaching the all-segments-matched terminal case. -/
theorem matcher_reflexive_on_literals (D : String)
    (h : D.data.contains '*' = false) :
    domain_matches_pattern D D = true := by
  unfold domain_matches_pattern
  simp [matchSegments_refl]

/-- Witness for C7 at the literal domain `example.org.`. -/
theorem matcher_reflexive_on_literals_witness :
    (("example.org.") : String).data.contains '*' = false
    ∧ domain_matches_pattern ("example.org.") ("example.org.") = true :=
  ⟨by decide, matcher_reflexive_on_literals ("example.org.") (by decide)⟩

/-- C2 counterexample: the escape segment consulted by the segment-count
check is NOT the "first reversed = rightmost original" segment.  For the
pattern `*.example.org.` that segment is the empty label left of the
trailing dot, not `*`, the segment counts of pattern and candidate differ,
and yet the match succeeds — because the code consults the LAST reversed
(leftmost original) segment instead. -/
theorem escape_segment_not_rightmost_counterexample :
    (splitDot ("*.example.org.")).length ≠ (splitDot ("www.test.example.org.")).length
    ∧ (splitDot ("*.example.org.")).reverse.head? ≠ some ("*")
    ∧ domain_matches_pattern ("*.example.org.") ("www.test.example.org.") = true := by
  decide

/-- C2 (amended): for every pattern string and candidate whose
dot-separated segment counts differ, `domain_matches_pattern` returns
false unless the leading pattern segment — the leftmost original
segment, i.e. the LAST one in reversed order — is exactly `*`. -/
theorem segment_count_mismatch_requires_leading_star (p d : String)
    (hlen : (splitDot p).length ≠ (splitDot d).length)
    (hstar : (splitDot p).head? ≠ some ("*")) :
    domain_matches_pattern p d = false := by
  unfold domain_matches_pattern
  simp
  rintro (h | h)
  · exact absurd h hlen
  · exact absurd h hstar

/-- Witness for C2 at the example given by the spec: `example.org.` against
`www.example.org.` is denied on segment-count mismatch. -/
theorem segment_count_mismatch_requires_leading_star_witness :
    (splitDot ("example.org.")).length ≠ (splitDot ("www.example.org.")).length
    ∧ (splitDot ("example.org.")).head? ≠ some ("*")
    ∧ domain_matches_pattern ("example.org.") ("www.example.org.") = false :=
  ⟨by decide, by decide,
    segment_count_mismatch_requires_leading_star ("example.org.") ("www.example.org.")
      (by decide) (by decide)⟩

/-- C3: once the segment loop reaches a pattern label that is not
textually equal to its paired candidate label and that splits at its first
`*` into a head and a tail, the result of the whole loop is exactly
(candidate label starts with head AND ends with tail), whatever segments
remain; and `www.*.example.org.` matches `www.test.example.org.`. -/
theorem wildcard_segment_short_circuit (p d hd tl : String) (ps ds : List String)
    (hne : (p == d) = false)
    (hsplit : splitOnce p '*' = some (hd, tl)) :
    matchSegments (p :: ps) (d :: ds) = (strStartsWith d hd && strEndsWith d tl)
    ∧ domain_matches_pattern ("www.*.example.org.") ("www.test.example.org.") = true := by
  refine ⟨?_, by decide⟩
  simp [matchSegments, hne, hsplit]

/-- Witness for C3 at a pattern label `a*b*c` carrying two stars: it is
split at the first star only, and the remaining mismatched segments `x`,
`y` are never examined. -/
theorem wildcard_segment_short_circuit_witness :
    ((("a*b*c") == ("azb*c")) = false)
    ∧ splitOnce ("a*b*c") '*' = some (("a"), ("b*c"))
    ∧ matchSegments [("a*b*c"), ("x")] [("azb*c"), ("y")]
        = (strStartsWith ("azb*c") ("a") && strEndsWith ("azb*c") ("b*c")) :=
  ⟨by decide, by decide,
    (wildcard_segment_short_circuit ("a*b*c") ("azb*c") ("a") ("b*c") [("x")] [("y")]
      (by decide) (by decide)).1⟩

/-- C9: when the leading pattern label is a bare `*` and the pattern has
more dot-separated segments than the candidate, the match compares only as
many root-side label pairs as the candidate has — the result equals the
segment loop run on the pattern truncated to the candidate length — and
`*.a.example.org.` matches the shorter `example.org.`. -/
theorem leading_star_ignores_surplus_labels (p d : String)
    (hstar : (splitDot p).head? = some ("*"))
    (hlen : (splitDot d).length < (splitDot p).length) :
    domain_matches_pattern p d
        = matchSegments ((splitDot p).reverse.take (splitDot d).reverse.length)
            ((splitDot d).reverse)
    ∧ domain_matches_pattern ("*.a.example.org.") ("example.org.") = true := by
  refine ⟨?_, by decide⟩
  unfold domain_matches_pattern
  simp [hstar]
  simpa using matchSegments_take_length (splitDot p).reverse (splitDot d).reverse

/-- Witness for C9 at the pattern `*.a.example.org.` and the shorter
candidate `example.org.`. -/
theorem leading_star_ignores_surplus_labels_witness :
    (splitDot ("*.a.example.org.")).head? = some ("*")
    ∧ (splitDot ("example.org.")).length < (splitDot ("*.a.example.org.")).length
    ∧ domain_matches_pattern ("*.a.example.org.") ("example.org.")
        = matchSegments ((splitDot ("*.a.example.org.")).reverse.take
            (splitDot ("example.org.")).reverse.length)
            ((splitDot ("example.org.")).reverse) :=
  ⟨by decide, by decide,
    (leading_star_ignores_surplus_labels ("*.a.example.org.") ("example.org.")
      (by decide) (by decide)).1⟩

/-- C4: `RecordDelegation::validate` is exactly the conjunction of the
`@`-substituted pattern match with the type filter, where the empty type
list admits every record kind and membership is compared after
uppercasing both sides; concretely, `types = []` admits every kind at a
matching domain and `types = ["MX"]` rejects a kind-A record there. -/
theorem record_delegation_validate_characterization :
    (∀ (rd : RecordDelegation) (zone_fqdn record_type domain : String),
      rd.validate zone_fqdn record_type domain = true ↔
        (domain_matches_pattern (replaceChar rd.pattern '@' zone_fqdn) domain = true
          ∧ (rd.types = []
              ∨ ∃ ty ∈ rd.types, toUpperStr ty = toUpperStr record_type)))
    ∧ (∀ record_type : String,
        (RecordDelegation.mk ("example.org.") []).validate ("example.org.") record_type
          ("example.org.") = true)
    ∧ (RecordDelegation.mk ("example.org.") [("MX")]).validate ("example.org.") ("A")
        ("example.org.") = false := by
  refine ⟨?_, ?_, by decide⟩
  · intro rd zone_fqdn record_type domain
    unfold RecordDelegation.validate
    simp [List.any_eq_true, List.isEmpty_iff]
  · intro record_type
    unfold RecordDelegation.validate
    simp
    decide

/-- C6: `Delegation::validate_record` grants iff at least one contained
rule validates (so an empty rule list always denies), and
`Delegation::validate_zone` over an empty pattern list always denies. -/
theorem delegation_empty_lists_deny (d : Delegation)
    (zone_fqdn record_type domain parent_fqdn zdomain : String) :
    (d.validate_record zone_fqdn record_type domain = true
        ↔ ∃ rd ∈ d.records, rd.validate zone_fqdn record_type domain = true)
    ∧ (d.records = [] → d.validate_record zone_fqdn record_type domain = false)
    ∧ (d.zones = [] → d.validate_zone parent_fqdn zdomain = false) := by
  refine ⟨?_, ?_, ?_⟩
  · simp [Delegation.validate_record, List.any_eq_true]
  · intro h
    simp [Delegation.validate_record, h]
  · intro h
    simp [Delegation.validate_zone, h]

/-- Witness for C6 at the all-empty delegation. -/
theorem delegation_empty_lists_deny_witness :
    (Delegation.mk [] [] []).validate_record ("example.org.") ("A") ("www.example.org.")
        = false
    ∧ (Delegation.mk [] [] []).validate_zone ("example.org.") ("sub.example.org.") = false :=
  ⟨(delegation_empty_lists_deny (Delegation.mk [] [] []) ("example.org.") ("A")
      ("www.example.org.") ("example.org.") ("sub.example.org.")).2.1 rfl,
    (delegation_empty_lists_deny (Delegation.mk [] [] []) ("example.org.") ("A")
      ("www.example.org.") ("example.org.") ("sub.example.org.")).2.2 rfl⟩

/-- C10: a candidate whose metadata carries no namespace is evaluated with
the empty string as its namespace — replacing the absent namespace by an
explicit empty string changes neither validation result — and the empty
namespace is covered exactly by delegations whose namespace list is empty
or explicitly contains the empty string. -/
theorem missing_namespace_evaluated_as_empty (z : Zone) (r : Record) (zc : Zone)
    (d : Delegation)
    (hns : r.metadata.namespace_ = none)
    (hzns : zc.metadata.namespace_ = none) :
    z.validate_record r
        = z.validate_record
            (Record.mk (ObjectMeta.mk r.metadata.name (some ("")) r.metadata.uid)
              r.spec r.status)
    ∧ z.validate_zone zc
        = z.validate_zone
            (Zone.mk (ObjectMeta.mk zc.metadata.name (some ("")) zc.metadata.uid)
              zc.spec zc.status)
    ∧ (d.covers_namespace ("") = true ↔ (d.namespaces = [] ∨ ("") ∈ d.namespaces)) := by
  refine ⟨?_, ?_, ?_⟩
  · unfold Zone.validate_record
    simp [Record.fqdn, hns]
  · unfold Zone.validate_zone
    simp [Zone.fqdn, hzns]
  · unfold Delegation.covers_namespace
    cases d.namespaces with
    | nil => simp
    | cons n ns =>
      simp [List.any_eq_true]
      exact or_congr eq_comm Iff.rfl

/-- Witness for C10 at a concrete zone and namespace-less candidates. -/
theorem missing_namespace_evaluated_as_empty_witness :
    noNamespaceRecord.metadata.namespace_ = none
    ∧ wildcardZone.validate_record noNamespaceRecord
        = wildcardZone.validate_record
            (Record.mk (ObjectMeta.mk noNamespaceRecord.metadata.name (some (""))
              noNamespaceRecord.metadata.uid) noNamespaceRecord.spec
              noNamespaceRecord.status) :=
  ⟨rfl, (missing_namespace_evaluated_as_empty wildcardZone noNamespaceRecord
      noNamespaceZone (Delegation.mk [("default")] [] []) rfl rfl).1⟩

/-- C1 counterexample: subdomain containment in `Zone::validate_record` is
NOT strict.  This reproduces the in-repository `test_record_type_limit`
fixture: the FQDN of the MX record equals the zone FQDN `example.org.` and
the record is nevertheless allowed, so a candidate with FQDN identical to
that of the parent is not denied. -/
theorem identical_fqdn_record_allowed_counterexample :
    Zone.fqdn typeLimitZone = some ("example.org.")
    ∧ Record.fqdn mxRecord = some ("example.org.")
    ∧ typeLimitZone.validate_record mxRecord = true := by
  decide

/-- C1 (amended): `Zone::validate_record(parent, record)` returns true iff
parent has a computed FQDN, record has a computed FQDN, the record FQDN is a
subdomain of the parent FQDN in the reflexive label-suffix sense (identical
FQDNs pass), and at least one delegation of the parent both covers the
namespace of the record (absent namespaces default to the empty string) and
validates the (record type, domain name) pair; in particular if either
side lacks a computed FQDN the result is false. -/
theorem validate_record_characterization (z : Zone) (r : Record) :
    z.validate_record r = true ↔
      ∃ pf rf, Zone.fqdn z = some pf ∧ Record.fqdn r = some rf
        ∧ is_subdomain_of rf pf = true
        ∧ z.spec.delegations.any (fun delegation =>
            delegation.covers_namespace (r.metadata.namespace_.getD (""))
              && delegation.validate_record pf r.spec.type_ r.spec.domain_name)
            = true := by
  unfold Zone.validate_record
  cases hz : Zone.fqdn z with
  | none => simp
  | some pf =>
    cases hr : Record.fqdn r with
    | none => simp
    | some rf => simp [optIsSomeAnd]

/-- C5: a zone is never authorized as a sub-zone of itself, whatever its
delegations: without an FQDN the first precondition denies, and with one
the uid self-reference check denies (the subdomain relation itself being
reflexive, it is the uid check that fires). -/
theorem zone_never_validates_itself (z : Zone) : z.validate_zone z = false := by
  unfold Zone.validate_zone
  cases hz : Zone.fqdn z with
  | none => rfl
  | some f => simp

/-- C8: the `Display` implementation consulted by the diagnostic trace
events unwraps the optional metadata namespace, so its result is
undefined (a panic in Rust) exactly for candidates without a namespace;
`noNamespaceZone` has no FQDN, so `Zone::validate_record` takes the very
trace path that formats the zone, while the formatting itself has no
defined result. -/
theorem display_unwrap_reachable_without_namespace :
    Zone.fqdn noNamespaceZone = none
    ∧ Zone.display noNamespaceZone = none
    ∧ noNamespaceZone.validate_record noNamespaceRecord = false := by
  decide

end Kubizone
